import Mathlib

/-!
Shallow embedding of the SOCKS5 proxy server in `src/src/index.ts` together
with its protocol constants from `src/src/constants.ts`.

Buffers are modelled as lists of natural numbers; reading a byte reduces
modulo 256 (Node `Buffer` cells are unsigned 8-bit) and reads past the end
of the buffer yield 0, matching the zero-fill behaviour of the byte-cursor
dependency on truncated input.  Each per-connection data handler
(`handshake`, `authenticate`, `connect`) is embedded as a pure function from
the inbound buffer and the configured hook outcomes to the ordered list of
externally observable events it produces: socket writes, terminal
`socket.end` replies, hook invocations, arming of the next data handler,
establishment of the bidirectional relay, and uncaught exceptions /
promise rejections.
-/

namespace SimpleSocks

/-! Protocol constants, from `src/src/constants.ts`. -/

namespace RFC_1928_ATYP

def DOMAINNAME : Nat := 0x03

def IPV4 : Nat := 0x01

def IPV6 : Nat := 0x04

end RFC_1928_ATYP

def LENGTH_RFC_1928_ATYP : Nat := 4

namespace RFC_1928_COMMANDS

def BIND : Nat := 0x02

def CONNECT : Nat := 0x01

def UDP_ASSOCIATE : Nat := 0x03

end RFC_1928_COMMANDS

namespace RFC_1928_METHODS

def BASIC_AUTHENTICATION : Nat := 0x02

def GSSAPI : Nat := 0x01

def NO_ACCEPTABLE_METHODS : Nat := 0xff

def NO_AUTHENTICATION_REQUIRED : Nat := 0x00

end RFC_1928_METHODS

namespace RFC_1928_REPLIES

def ADDRESS_TYPE_NOT_SUPPORTED : Nat := 0x08

def COMMAND_NOT_SUPPORTED : Nat := 0x07

def CONNECTION_NOT_ALLOWED : Nat := 0x02

def CONNECTION_REFUSED : Nat := 0x05

def GENERAL_FAILURE : Nat := 0x01

def HOST_UNREACHABLE : Nat := 0x04

def NETWORK_UNREACHABLE : Nat := 0x03

def SUCCEEDED : Nat := 0x00

def TTL_EXPIRED : Nat := 0x06

end RFC_1928_REPLIES

def RFC_1928_VERSION : Nat := 0x05

namespace RFC_1929_REPLIES

def GENERAL_FAILURE : Nat := 0xff

def SUCCEEDED : Nat := 0x00

end RFC_1929_REPLIES

def RFC_1929_VERSION : Nat := 0x01

/-! Byte-cursor primitives.  The byte-cursor dependency reads fixed-width
big-endian integers and raw sub-buffers sequentially; we model a read at an
absolute offset of the inbound buffer, since every handler parses a single
buffer from offset 0. -/

/-- Read one byte of a buffer; cells are unsigned 8-bit, reads past the end
yield 0. -/
def byteAt (buffer : List Nat) (i : Nat) : Nat :=
  buffer.getD i 0 % 256

/-- Read a raw sub-buffer of a given length at a given offset (truncated at
the end of the buffer). -/
def readBytes (buffer : List Nat) (off len : Nat) : List Nat :=
  ((buffer.drop off).take len).map (· % 256)

/-- Read an unsigned 16-bit big-endian integer, as the cursor's word16bu. -/
def word16bu (buffer : List Nat) (off : Nat) : Nat :=
  byteAt buffer off * 256 + byteAt buffer (off + 1)

/-- Read an unsigned 32-bit big-endian integer, as the cursor's word32be. -/
def word32be (buffer : List Nat) (off : Nat) : Nat :=
  byteAt buffer off * 0x1000000 + byteAt buffer (off + 1) * 0x10000 +
    byteAt buffer (off + 2) * 0x100 + byteAt buffer (off + 3)

/-- Decode a byte sequence as text, one character per byte.  This models
Node Buffer.toString() on the ASCII inputs the proxy deals with. -/
def bytesToString (bytes : List Nat) : String :=
  String.mk (bytes.map Char.ofNat)

/-! JavaScript helpers needed to embed the source faithfully. -/

/-- JavaScript typeof applied to a boolean value: the string "boolean". -/
def jsTypeof (_ : Bool) : String := "boolean"

/-- JavaScript truthiness of a string: every nonempty string is truthy. -/
def jsStringTruthy (s : String) : Bool := !(s == "")

/-! Session events and hook outcome model. -/

/-- The data handler armed by socket.once("data", next). -/
inductive NextHandler
  /-- The request-stage handler, the local function connect. -/
  | connectH
  /-- The RFC 1929 sub-negotiation handler, the local function authenticate. -/
  | authenticateH
deriving DecidableEq, Repr

/-- Externally observable events produced by a data handler, in order. -/
inductive SockEvent
  /-- socket.write(bytes): a reply written with the connection kept open. -/
  | write (bytes : List Nat)
  /-- socket.end(bytes): a terminal reply written while half-closing. -/
  | endData (bytes : List Nat)
  /-- socket.once("data", next): the next data handler is armed. -/
  | armNext (n : NextHandler)
  /-- The caller-supplied authenticate hook is invoked. -/
  | callAuth (username password : String)
  /-- The caller-supplied filter hook is invoked. -/
  | callFilter (port : Nat) (address : String)
  /-- The caller-supplied connect hook is invoked. -/
  | callConnect (port : Nat) (address : String)
  /-- destination.pipe(socket); socket.pipe(destination): the relay begins. -/
  | pipe
  /-- The TypeError("Incorrect function") thrown by the endConnect guard. -/
  | throwTypeError
  /-- An error rethrown by the handler after a reply was already sent. -/
  | rethrow
  /-- The async tap callback rejects with an uncaught exception; nothing
  further runs and nothing is written to the client. -/
  | rejection
deriving DecidableEq, Repr

/-- Outcome of one invocation of a boolean hook (filter or authenticate):
it settles to a value, or it throws / its promise rejects. -/
inductive HookOutcome
  | ret (b : Bool)
  | throws
deriving DecidableEq, Repr

/-- Outcome of one invocation of the connect hook: it resolves with a
destination socket, or it rejects with an error carrying a string code, or
it rejects with a value carrying no string code. -/
inductive ConnectOutcome
  | ok
  | errCode (code : String)
  | errNoCode
deriving DecidableEq, Repr

/-! The reply / termination helpers, from `src/src/index.ts`. -/

/-- The endConnect helper: it refuses to recycle a buffer whose first byte
is not the RFC 1928 version (throwing TypeError("Incorrect function")),
otherwise overwrites the status byte and half-closes with the buffer. -/
def endConnect (response : Nat) (responseBuffer : List Nat) : List SockEvent :=
  if byteAt responseBuffer 0 ≠ RFC_1928_VERSION then
    [.throwTypeError]
  else
    [.endData (responseBuffer.set 1 response)]

/-- The authenticateReply helper: a fresh 2-byte RFC 1929 reply. -/
def authenticateReply (response : Nat) : List Nat :=
  [RFC_1929_VERSION, response]

/-- The endHandshake helper: a fresh 2-byte RFC 1928 reply, then end. -/
def endHandshake (response : Nat) : List SockEvent :=
  [.endData [RFC_1928_VERSION, response]]

/-! The handshake handler, `src/src/index.ts` lines 353-403. -/

/-- The handshake data handler.  basicAuth embeds
typeof options.authenticate === "function".  Note that the source computes
noAuth as the truthiness of
typeof acceptedMethods.includes(NO_AUTHENTICATION_REQUIRED), i.e. of the
string "boolean", so the parsed METHODS list never influences the result. -/
def handshake (basicAuth : Bool) (buffer : List Nat) : List SockEvent :=
  let ver := byteAt buffer 0
  let nmethods := byteAt buffer 1
  let methods := readBytes buffer 2 nmethods
  if ver ≠ RFC_1928_VERSION then
    endHandshake RFC_1928_REPLIES.GENERAL_FAILURE
  else
    let acceptedMethods := methods
    let noAuth := !basicAuth &&
      jsStringTruthy
        (jsTypeof
          (acceptedMethods.contains RFC_1928_METHODS.NO_AUTHENTICATION_REQUIRED))
    if basicAuth then
      [.write [RFC_1928_VERSION, RFC_1928_METHODS.BASIC_AUTHENTICATION],
       .armNext .authenticateH]
    else if !basicAuth && noAuth then
      [.write [RFC_1928_VERSION, RFC_1928_METHODS.NO_AUTHENTICATION_REQUIRED],
       .armNext .connectH]
    else
      endHandshake RFC_1928_METHODS.NO_ACCEPTABLE_METHODS

/-! The RFC 1929 sub-negotiation handler, `src/src/index.ts` lines 96-137. -/

/-- The username parsed from an auth sub-negotiation buffer. -/
def unameOf (buffer : List Nat) : String :=
  bytesToString (readBytes buffer 2 (byteAt buffer 1))

/-- The password parsed from an auth sub-negotiation buffer. -/
def passwdOf (buffer : List Nat) : String :=
  bytesToString
    (readBytes buffer (3 + byteAt buffer 1) (byteAt buffer (2 + byteAt buffer 1)))

/-- The authenticate data handler.  authOpt embeds options.authenticate:
none when the server was configured without the hook (in which case the
non-null assertion dereferences undefined and the async tap rejects), some
with the outcome of the one invocation otherwise.  The await of the hook is
not wrapped in any try/catch, so a hook that throws or rejects leaves the
async tap callback with an uncaught rejection: no reply is written. -/
def authenticate (authOpt : Option HookOutcome) (buffer : List Nat) :
    List SockEvent :=
  let ver := byteAt buffer 0
  if ver ≠ RFC_1929_VERSION then
    [.endData (authenticateReply RFC_1929_REPLIES.GENERAL_FAILURE)]
  else
    match authOpt with
    | none => [.rejection]
    | some outcome =>
      .callAuth (unameOf buffer) (passwdOf buffer) ::
        match outcome with
        | .throws => [.rejection]
        | .ret true =>
          [.write (authenticateReply RFC_1929_REPLIES.SUCCEEDED),
           .armNext .connectH]
        | .ret false =>
          [.endData (authenticateReply RFC_1929_REPLIES.GENERAL_FAILURE)]

/-! The request-stage handler, `src/src/index.ts` lines 146-281. -/

/-- IPv4 address decoding: the four raw bytes joined with "." in decimal. -/
def decodeIPv4 (bytes : List Nat) : String :=
  String.intercalate "." (bytes.map toString)

/-- JavaScript x >>> 16: convert to an unsigned 32-bit integer, then shift
right by 16 bits. -/
def jsShrU16 (x : Nat) : Nat := x % 2 ^ 32 / 2 ^ 16

/-- JavaScript x & 0xffff on a nonnegative number: the low 16 bits. -/
def jsAnd16 (x : Nat) : Nat := x % 2 ^ 16

/-- Hex rendering as JavaScript Number.toString(16) on a nonnegative
integer: lowercase digits, no zero padding, "0" for zero. -/
def hexString (n : Nat) : String :=
  String.mk (Nat.toDigits 16 n)

/-- IPv6 address decoding from the four unsigned 32-bit big-endian words:
each word is split with >>> 16 and & 0xffff, each half is hex-encoded, and
the eight groups are joined with ":". -/
def decodeIPv6 (a b c d : Nat) : String :=
  String.intercalate ":"
    [hexString (jsShrU16 a), hexString (jsAnd16 a),
     hexString (jsShrU16 b), hexString (jsAnd16 b),
     hexString (jsShrU16 c), hexString (jsAnd16 c),
     hexString (jsShrU16 d), hexString (jsAnd16 d)]

/-- Modelled from the spec (section 4.3, IPv6): "four unsigned 32-bit
big-endian words; split each into two 16-bit halves, hex-encode without
zero padding, join all eight groups with a colon".  The two 16-bit halves
of a word are its quotient and remainder by 2 ^ 16. -/
def specIPv6Halves (x : Nat) : List Nat :=
  [x / 2 ^ 16, x % 2 ^ 16]

/-- Modelled from the spec: the IPv6 textual form obtained from the eight
16-bit halves, hex-encoded without zero padding, joined with a colon. -/
def decodeIPv6Spec (a b c d : Nat) : String :=
  String.intercalate ":"
    ((specIPv6Halves a ++ specIPv6Halves b ++ specIPv6Halves c ++
      specIPv6Halves d).map hexString)

/-- Destination decoding of a request buffer from its ATYP byte: the
decoded address string together with DST.PORT, or none for an unsupported
address type.  The DST.PORT offset depends on the address encoding because
the cursor reads it right after the address bytes. -/
def decodeDst (buffer : List Nat) : Option (String × Nat) :=
  let atyp := byteAt buffer 3
  if atyp = RFC_1928_ATYP.IPV4 then
    some (decodeIPv4 (readBytes buffer 4 LENGTH_RFC_1928_ATYP), word16bu buffer 8)
  else if atyp = RFC_1928_ATYP.DOMAINNAME then
    let size := byteAt buffer 4
    some (bytesToString (readBytes buffer 5 size), word16bu buffer (5 + size))
  else if atyp = RFC_1928_ATYP.IPV6 then
    some
      (decodeIPv6 (word32be buffer 4) (word32be buffer 8) (word32be buffer 12)
        (word32be buffer 16),
       word16bu buffer 20)
  else
    none

/-- The try block around the connect hook: on resolution the reply is a
fresh copy of the request buffer with the status byte set to SUCCEEDED,
written before the relay begins; on rejection the error code is mapped to a
reply code and the original buffer is recycled; an error without a string
code is rethrown after the reply is sent. -/
def tryConnectHook (outcome : ConnectOutcome) (buffer : List Nat)
    (port : Nat) (addr : String) : List SockEvent :=
  .callConnect port addr ::
    match outcome with
    | .ok =>
      [.write (buffer.set 1 RFC_1928_REPLIES.SUCCEEDED), .pipe]
    | .errCode code =>
      if code = "EADDRNOTAVAIL" then
        endConnect RFC_1928_REPLIES.HOST_UNREACHABLE buffer
      else if code = "ECONNREFUSED" then
        endConnect RFC_1928_REPLIES.CONNECTION_REFUSED buffer
      else if code = "ETIMEDOUT" then
        endConnect RFC_1928_REPLIES.TTL_EXPIRED buffer
      else
        endConnect RFC_1928_REPLIES.NETWORK_UNREACHABLE buffer
    | .errNoCode =>
      endConnect RFC_1928_REPLIES.NETWORK_UNREACHABLE buffer ++ [.rethrow]

/-- The final tap of the request handler, run after DST.PORT is read.
filterOpt embeds options.filter: none when unbound, some with the outcome
of the one invocation otherwise.  The await of the filter hook is not
wrapped in any try/catch, so a filter that throws or rejects leaves the
async tap with an uncaught rejection and nothing is written. -/
def requestFinalTap (filterOpt : Option HookOutcome)
    (connectOutcome : ConnectOutcome) (buffer : List Nat) (port : Nat)
    (addr : String) : List SockEvent :=
  let cmd := byteAt buffer 1
  if cmd = RFC_1928_COMMANDS.CONNECT then
    match filterOpt with
    | some f =>
      .callFilter port addr ::
        match f with
        | .throws => [.rejection]
        | .ret false =>
          endConnect RFC_1928_REPLIES.CONNECTION_NOT_ALLOWED buffer
        | .ret true => tryConnectHook connectOutcome buffer port addr
    | none => tryConnectHook connectOutcome buffer port addr
  else
    endConnect RFC_1928_REPLIES.SUCCEEDED buffer

/-- The request-stage data handler (the local function connect).  A version
mismatch calls endConnect with the raw request buffer, whose guard then
throws because the first byte is not the RFC 1928 version, aborting the
parse chain.  On an unsupported ATYP the first tap half-closes with
ADDRESS_TYPE_NOT_SUPPORTED, but the byte-cursor chain still reads DST.PORT
from the two bytes after ATYP and runs the final tap with the address left
as the empty string. -/
def connectRequest (filterOpt : Option HookOutcome)
    (connectOutcome : ConnectOutcome) (buffer : List Nat) : List SockEvent :=
  let ver := byteAt buffer 0
  if ver ≠ RFC_1928_VERSION then
    endConnect RFC_1928_REPLIES.GENERAL_FAILURE buffer
  else
    match decodeDst buffer with
    | some (addr, port) =>
      requestFinalTap filterOpt connectOutcome buffer port addr
    | none =>
      endConnect RFC_1928_REPLIES.ADDRESS_TYPE_NOT_SUPPORTED buffer ++
        requestFinalTap filterOpt connectOutcome buffer (word16bu buffer 4) ""

/-- The events contributed by the bound filter hook on the paths where it
allows the connection: nothing when unbound, its invocation otherwise. -/
def filterEvents (filterOpt : Option HookOutcome) (port : Nat)
    (addr : String) : List SockEvent :=
  match filterOpt with
  | none => []
  | some _ => [.callFilter port addr]

/-! Per-connection state machine over the armed data handlers.  The server
arms handshake on connection; each subsequent handler arms at most one next
data handler inside its write callback. -/

/-- Per-step nondeterministic input: the inbound buffer and the outcome of
each hook, were it to be invoked during this step. -/
structure StepInput where
  buffer : List Nat
  authOutcome : HookOutcome
  filterOutcome : HookOutcome
  connectOutcome : ConnectOutcome

/-- The per-connection control state: which data handler is armed. -/
inductive Phase
  | handshakeP
  | nextP (n : NextHandler)
  | done
deriving DecidableEq, Repr

/-- The data handler armed by a trace: the first armNext event, if any. -/
def armedNext : List SockEvent → Option NextHandler
  | [] => none
  | e :: es =>
    match e with
    | .armNext n => some n
    | _ => armedNext es

/-- The phase a trace leaves the session in. -/
def phaseOf (trace : List SockEvent) : Phase :=
  match armedNext trace with
  | some n => .nextP n
  | none => .done

/-- One step of the session: dispatch the armed data handler on the inbound
buffer.  hasAuth and hasFilter embed whether options.authenticate and
options.filter are bound; they are fixed for the lifetime of the server. -/
def stepSession (hasAuth hasFilter : Bool) (ph : Phase) (inp : StepInput) :
    Phase :=
  match ph with
  | .handshakeP => phaseOf (handshake hasAuth inp.buffer)
  | .nextP .authenticateH =>
    phaseOf
      (authenticate (if hasAuth then some inp.authOutcome else none) inp.buffer)
  | .nextP .connectH =>
    phaseOf
      (connectRequest (if hasFilter then some inp.filterOutcome else none)
        inp.connectOutcome inp.buffer)
  | .done => .done

/-- The session phases reachable from the initial handshake phase. -/
inductive ReachablePhase (hasAuth hasFilter : Bool) : Phase → Prop
  | init : ReachablePhase hasAuth hasFilter .handshakeP
  | step {ph : Phase} (inp : StepInput) :
      ReachablePhase hasAuth hasFilter ph →
      ReachablePhase hasAuth hasFilter (stepSession hasAuth hasFilter ph inp)

/-! Helper lemmas. -/

/-- A byte read that is nonzero lies within the buffer. -/
theorem lt_length_of_byteAt_ne_zero {buffer : List Nat} {i : Nat}
    (h : byteAt buffer i ≠ 0) : i < buffer.length := by
  by_contra hc
  push_neg at hc
  simp [byteAt, List.getD_eq_getElem?_getD, List.getElem?_eq_none hc] at h

theorem armedNext_append_of_none {xs : List SockEvent} (ys : List SockEvent)
    (h : armedNext xs = none) : armedNext (xs ++ ys) = armedNext ys := by
  induction xs with
  | nil => rfl
  | cons e es ih => cases e <;> simp_all [armedNext]

theorem armedNext_endConnect (r : Nat) (b : List Nat) :
    armedNext (endConnect r b) = none := by
  unfold endConnect
  split <;> rfl

theorem armedNext_tryConnectHook (o : ConnectOutcome) (b : List Nat)
    (p : Nat) (a : String) : armedNext (tryConnectHook o b p a) = none := by
  cases o with
  | ok => rfl
  | errCode code =>
    simp only [tryConnectHook, armedNext]
    split_ifs <;> exact armedNext_endConnect _ _
  | errNoCode =>
    simp only [tryConnectHook, armedNext]
    rw [armedNext_append_of_none _ (armedNext_endConnect _ _)]
    rfl

theorem armedNext_requestFinalTap (fo : Option HookOutcome)
    (co : ConnectOutcome) (b : List Nat) (p : Nat) (a : String) :
    armedNext (requestFinalTap fo co b p a) = none := by
  by_cases hc : byteAt b 1 = RFC_1928_COMMANDS.CONNECT
  · cases fo with
    | none => simp [requestFinalTap, hc, armedNext_tryConnectHook]
    | some f =>
      cases f with
      | throws => simp [requestFinalTap, hc, armedNext]
      | ret bb =>
        cases bb with
        | false => simp [requestFinalTap, hc, armedNext, armedNext_endConnect]
        | true =>
          have hstep : requestFinalTap (some (HookOutcome.ret true)) co b p a =
              SockEvent.callFilter p a :: tryConnectHook co b p a := by
            simp [requestFinalTap, hc]
          rw [hstep,
            show armedNext (SockEvent.callFilter p a :: tryConnectHook co b p a) =
              armedNext (tryConnectHook co b p a) from rfl,
            armedNext_tryConnectHook]
  · simp [requestFinalTap, hc, armedNext_endConnect]

theorem armedNext_connectRequest (fo : Option HookOutcome)
    (co : ConnectOutcome) (b : List Nat) :
    armedNext (connectRequest fo co b) = none := by
  by_cases hv : byteAt b 0 = RFC_1928_VERSION
  · cases hd : decodeDst b with
    | some x =>
      obtain ⟨addr, port⟩ := x
      simp [connectRequest, hv, hd, armedNext_requestFinalTap]
    | none =>
      simp only [connectRequest, hv, hd, ne_eq, not_true_eq_false, if_false,
        ite_false]
      rw [armedNext_append_of_none _ (armedNext_endConnect _ _)]
      exact armedNext_requestFinalTap _ _ _ _ _
  · simp [connectRequest, hv, armedNext_endConnect]

theorem armedNext_handshake_false (buffer : List Nat) :
    armedNext (handshake false buffer) = none ∨
      armedNext (handshake false buffer) = some NextHandler.connectH := by
  by_cases hv : byteAt buffer 0 = RFC_1928_VERSION
  · right
    simp [handshake, hv, jsTypeof, jsStringTruthy, endHandshake, armedNext]
  · left
    simp [handshake, hv, endHandshake, armedNext]

theorem armedNext_authenticate (ao : Option HookOutcome) (buffer : List Nat) :
    armedNext (authenticate ao buffer) = none ∨
      armedNext (authenticate ao buffer) = some NextHandler.connectH := by
  by_cases hv : byteAt buffer 0 = RFC_1929_VERSION
  · cases ao with
    | none => left; simp [authenticate, hv, armedNext]
    | some o =>
      cases o with
      | throws => left; simp [authenticate, hv, armedNext]
      | ret bb =>
        cases bb with
        | false => left; simp [authenticate, hv, armedNext]
        | true => right; simp [authenticate, hv, armedNext]
  · left; simp [authenticate, hv, armedNext]

theorem pipe_not_mem_filterEvents (fo : Option HookOutcome) (p : Nat)
    (a : String) : SockEvent.pipe ∉ filterEvents fo p a := by
  cases fo <;> simp [filterEvents]

theorem pipe_not_mem_tryConnectHook (co : ConnectOutcome) (b : List Nat)
    (p : Nat) (a : String) (hv : byteAt b 0 = RFC_1928_VERSION)
    (hco : co ≠ .ok) : SockEvent.pipe ∉ tryConnectHook co b p a := by
  cases co with
  | ok => exact absurd rfl hco
  | errCode code =>
    simp only [tryConnectHook, endConnect, hv]
    split_ifs <;> simp
  | errNoCode => simp [tryConnectHook, endConnect, hv]

/-! Claim theorems. -/

/-- C1: contrary to the claim, a version-0x05 handshake with no
authenticate hook configured always selects NO_AUTHENTICATION_REQUIRED and
arms the request handler, whatever METHODS the client offered: the noAuth
flag is the truthiness of a typeof string, so the NO_ACCEPTABLE_METHODS
branch is unreachable and the selection is not governed by whether the
METHODS list contains 0x00. -/
theorem handshake_no_auth_always_selected (buffer : List Nat)
    (hv : byteAt buffer 0 = RFC_1928_VERSION) :
    handshake false buffer =
      [.write [RFC_1928_VERSION, RFC_1928_METHODS.NO_AUTHENTICATION_REQUIRED],
       .armNext .connectH] := by
  simp [handshake, hv, jsTypeof, jsStringTruthy]

/-- Witness for C1: the client offers only BASIC_AUTHENTICATION, without
0x00, yet the server still replies (0x05, 0x00) and arms the request
handler instead of replying (0x05, 0xFF) and terminating. -/
theorem handshake_no_auth_always_selected_witness :
    (readBytes [5, 1, 2] 2 1).contains
        RFC_1928_METHODS.NO_AUTHENTICATION_REQUIRED = false ∧
    handshake false [5, 1, 2] =
      [.write [RFC_1928_VERSION, RFC_1928_METHODS.NO_AUTHENTICATION_REQUIRED],
       .armNext .connectH] :=
  ⟨by decide, handshake_no_auth_always_selected [5, 1, 2] (by decide)⟩

/-- C2: contrary to the claim, when the request version byte differs from
0x05 the handler writes no reply at all: endConnect is called with the raw
request buffer, whose guard throws TypeError("Incorrect function") because
the first byte fails the version check, aborting the session before any
GENERAL_FAILURE reply can be written. -/
theorem connectRequest_ver_mismatch_throws (fo : Option HookOutcome)
    (co : ConnectOutcome) (buffer : List Nat)
    (hv : byteAt buffer 0 ≠ RFC_1928_VERSION) :
    connectRequest fo co buffer = [.throwTypeError] := by
  simp [connectRequest, endConnect, hv]

/-- Witness for C2 on a concrete version-0x04 CONNECT request: no reply
with the status byte overwritten to GENERAL_FAILURE is produced. -/
theorem connectRequest_ver_mismatch_throws_witness :
    connectRequest none ConnectOutcome.ok [4, 1, 0, 1, 127, 0, 0, 1, 0, 80] =
      [.throwTypeError] :=
  connectRequest_ver_mismatch_throws none ConnectOutcome.ok _ (by decide)

/-- C3: contrary to the claim, a version-0x01 auth buffer whose
authenticate hook throws or rejects is not treated as a denial: the await
of the hook is not wrapped in any try/catch, so the hook is invoked and the
async tap is left with an uncaught rejection — no (0x01, 0xFF) reply is
written and the handler does not end the connection. -/
theorem authenticate_throw_not_denied (buffer : List Nat)
    (hv : byteAt buffer 0 = RFC_1929_VERSION) :
    authenticate (some .throws) buffer =
      [.callAuth (unameOf buffer) (passwdOf buffer), .rejection] := by
  simp [authenticate, hv]

/-- Witness for C3 on a concrete credentials buffer. -/
theorem authenticate_throw_not_denied_witness :
    authenticate (some .throws) [1, 1, 97, 1, 98] =
      [.callAuth (unameOf [1, 1, 97, 1, 98]) (passwdOf [1, 1, 97, 1, 98]),
       .rejection] :=
  authenticate_throw_not_denied [1, 1, 97, 1, 98] (by decide)

/-- C4: contrary to the claim, on a CONNECT request whose filter hook
throws or rejects, no CONNECTION_NOT_ALLOWED reply is written and the
connection is not ended by the handler: the filter call is not wrapped in
any try/catch, so the uncaught rejection stops the session.  The part of
the claim that holds is visible in the trace: the connect hook is never
invoked. -/
theorem filter_throw_not_replied (co : ConnectOutcome) (buffer : List Nat)
    (addr : String) (port : Nat)
    (hv : byteAt buffer 0 = RFC_1928_VERSION)
    (hd : decodeDst buffer = some (addr, port))
    (hc : byteAt buffer 1 = RFC_1928_COMMANDS.CONNECT) :
    connectRequest (some .throws) co buffer =
      [.callFilter port addr, .rejection] := by
  simp [connectRequest, hv, hd, requestFinalTap, hc]

/-- Witness for C4 on a concrete IPv4 CONNECT request. -/
theorem filter_throw_not_replied_witness :
    connectRequest (some .throws) ConnectOutcome.ok
        [5, 1, 0, 1, 127, 0, 0, 1, 0, 80] =
      [.callFilter 80 "127.0.0.1", .rejection] :=
  filter_throw_not_replied ConnectOutcome.ok _ "127.0.0.1" 80 (by decide)
    (by decide) (by decide)

/-- C5: connect-hook failures map to reply codes exactly as claimed:
EADDRNOTAVAIL to HOST_UNREACHABLE (0x04), ECONNREFUSED to
CONNECTION_REFUSED (0x05), ETIMEDOUT to TTL_EXPIRED (0x06), any other
string code and any error without a string code to NETWORK_UNREACHABLE
(0x03), the last being rethrown after the reply is sent.  Every failure
reply recycles the original request buffer with only the status byte
changed, and no relay begins for any non-resolving outcome. -/
theorem connect_error_reply_mapping (fo : Option HookOutcome)
    (buffer : List Nat) (addr : String) (port : Nat)
    (hv : byteAt buffer 0 = RFC_1928_VERSION)
    (hd : decodeDst buffer = some (addr, port))
    (hc : byteAt buffer 1 = RFC_1928_COMMANDS.CONNECT)
    (hf : fo = none ∨ fo = some (HookOutcome.ret true)) :
    connectRequest fo (.errCode "EADDRNOTAVAIL") buffer =
      filterEvents fo port addr ++
        [.callConnect port addr,
         .endData (buffer.set 1 RFC_1928_REPLIES.HOST_UNREACHABLE)] ∧
    connectRequest fo (.errCode "ECONNREFUSED") buffer =
      filterEvents fo port addr ++
        [.callConnect port addr,
         .endData (buffer.set 1 RFC_1928_REPLIES.CONNECTION_REFUSED)] ∧
    connectRequest fo (.errCode "ETIMEDOUT") buffer =
      filterEvents fo port addr ++
        [.callConnect port addr,
         .endData (buffer.set 1 RFC_1928_REPLIES.TTL_EXPIRED)] ∧
    (∀ code : String, code ≠ "EADDRNOTAVAIL" → code ≠ "ECONNREFUSED" →
      code ≠ "ETIMEDOUT" →
      connectRequest fo (.errCode code) buffer =
        filterEvents fo port addr ++
          [.callConnect port addr,
           .endData (buffer.set 1 RFC_1928_REPLIES.NETWORK_UNREACHABLE)]) ∧
    connectRequest fo .errNoCode buffer =
      filterEvents fo port addr ++
        [.callConnect port addr,
         .endData (buffer.set 1 RFC_1928_REPLIES.NETWORK_UNREACHABLE),
         .rethrow] ∧
    ∀ co : ConnectOutcome, co ≠ .ok →
      SockEvent.pipe ∉ connectRequest fo co buffer := by
  have hmap : ∀ co : ConnectOutcome, connectRequest fo co buffer =
      filterEvents fo port addr ++ tryConnectHook co buffer port addr := by
    intro co
    rcases hf with rfl | rfl <;>
      simp [connectRequest, hv, hd, requestFinalTap, hc, filterEvents]
  refine ⟨?_, ?_, ?_, fun code h1 h2 h3 => ?_, ?_, fun co hco => ?_⟩
  · rw [hmap]
    simp [tryConnectHook, endConnect, hv]
  · rw [hmap]
    simp [tryConnectHook, endConnect, hv]
  · rw [hmap]
    simp [tryConnectHook, endConnect, hv]
  · rw [hmap]
    simp [tryConnectHook, endConnect, hv, h1, h2, h3]
  · rw [hmap]
    simp [tryConnectHook, endConnect, hv]
  · rw [hmap]
    simp [List.mem_append, pipe_not_mem_filterEvents fo port addr,
      pipe_not_mem_tryConnectHook co buffer port addr hv hco]

/-- Witness for C5 on a concrete IPv4 CONNECT request whose connect hook
rejects with ECONNREFUSED. -/
theorem connect_error_reply_mapping_witness :
    connectRequest none (.errCode "ECONNREFUSED")
        [5, 1, 0, 1, 127, 0, 0, 1, 0, 80] =
      filterEvents none 80 "127.0.0.1" ++
        [.callConnect 80 "127.0.0.1",
         .endData (([5, 1, 0, 1, 127, 0, 0, 1, 0, 80] : List Nat).set 1
           RFC_1928_REPLIES.CONNECTION_REFUSED)] :=
  (connect_error_reply_mapping none _ "127.0.0.1" 80 (by decide) (by decide)
    (by decide) (Or.inl rfl)).2.1

/-- C6: on a successful CONNECT the reply written to the client is a copy
of the original request buffer with the status byte set to SUCCEEDED, after
which the relay begins: the reply has exactly the original length, carries
0x00 at index 1, and agrees with the request at every other index. -/
theorem connect_success_reply (fo : Option HookOutcome) (buffer : List Nat)
    (addr : String) (port : Nat)
    (hv : byteAt buffer 0 = RFC_1928_VERSION)
    (hd : decodeDst buffer = some (addr, port))
    (hc : byteAt buffer 1 = RFC_1928_COMMANDS.CONNECT)
    (hf : fo = none ∨ fo = some (HookOutcome.ret true)) :
    connectRequest fo .ok buffer =
      filterEvents fo port addr ++
        [.callConnect port addr,
         .write (buffer.set 1 RFC_1928_REPLIES.SUCCEEDED), .pipe] ∧
    (buffer.set 1 RFC_1928_REPLIES.SUCCEEDED).length = buffer.length ∧
    (buffer.set 1 RFC_1928_REPLIES.SUCCEEDED)[1]? =
      some RFC_1928_REPLIES.SUCCEEDED ∧
    ∀ i : Nat, i ≠ 1 →
      (buffer.set 1 RFC_1928_REPLIES.SUCCEEDED)[i]? = buffer[i]? := by
  have h1 : 1 < buffer.length := by
    apply lt_length_of_byteAt_ne_zero (i := 1)
    rw [hc]
    decide
  refine ⟨?_, by simp, List.getElem?_set_eq_of_lt _ h1,
    fun i hi => List.getElem?_set_ne (by omega)⟩
  rcases hf with rfl | rfl <;>
    simp [connectRequest, hv, hd, requestFinalTap, hc, tryConnectHook,
      filterEvents]

/-- Witness for C6 on a concrete IPv4 CONNECT request. -/
theorem connect_success_reply_witness :
    connectRequest none ConnectOutcome.ok [5, 1, 0, 1, 127, 0, 0, 1, 0, 80] =
      filterEvents none 80 "127.0.0.1" ++
        [.callConnect 80 "127.0.0.1",
         .write (([5, 1, 0, 1, 127, 0, 0, 1, 0, 80] : List Nat).set 1
           RFC_1928_REPLIES.SUCCEEDED), .pipe] :=
  (connect_success_reply none _ "127.0.0.1" 80 (by decide) (by decide)
    (by decide) (Or.inl rfl)).1

/-- C7: for all four unsigned 32-bit big-endian words, including those with
the most significant bit set, the decoded IPv6 address is the eight
unsigned 16-bit halves hex-encoded without zero padding and joined with
colons, exactly as the spec words it; moreover the claim's concrete words
decode to "2001:db8:0:0:0:0:0:1" with no zero compression, both through the
codec and through request decoding. -/
theorem ipv6_decode_matches_spec (a b c d : Nat)
    (ha : a < 2 ^ 32) (hb : b < 2 ^ 32) (hc : c < 2 ^ 32) (hd : d < 2 ^ 32) :
    decodeIPv6 a b c d = decodeIPv6Spec a b c d ∧
    decodeIPv6 0x20010db8 0 0 1 = "2001:db8:0:0:0:0:0:1" ∧
    decodeDst ([5, 1, 0, 4] ++
        [0x20, 0x01, 0x0d, 0xb8, 0, 0, 0, 0, 0, 0, 0, 0, 0, 0, 0, 1] ++
        [0, 80]) =
      some ("2001:db8:0:0:0:0:0:1", 80) := by
  refine ⟨?_, by decide, by decide⟩
  unfold decodeIPv6 decodeIPv6Spec specIPv6Halves jsShrU16 jsAnd16
  rw [Nat.mod_eq_of_lt ha, Nat.mod_eq_of_lt hb, Nat.mod_eq_of_lt hc,
    Nat.mod_eq_of_lt hd]
  simp

/-- Witness for C7 at the claim's concrete words, whose first word has a
value above 2 to the 31. -/
theorem ipv6_decode_matches_spec_witness :
    decodeIPv6 0x20010db8 0 0 1 = decodeIPv6Spec 0x20010db8 0 0 1 :=
  (ipv6_decode_matches_spec 0x20010db8 0 0 1 (by decide) (by decide)
    (by decide) (by decide)).1

/-- C8: a version-0x05 request with a supported address type whose command
byte is not CONNECT is acknowledged with the raw request buffer, status
byte set to SUCCEEDED, while half-closing the connection; neither the
filter nor the connect hook is invoked and no relay begins. -/
theorem non_connect_command_acknowledged (fo : Option HookOutcome)
    (co : ConnectOutcome) (buffer : List Nat) (addr : String) (port : Nat)
    (hv : byteAt buffer 0 = RFC_1928_VERSION)
    (hd : decodeDst buffer = some (addr, port))
    (hcmd : byteAt buffer 1 ≠ RFC_1928_COMMANDS.CONNECT) :
    connectRequest fo co buffer =
      [.endData (buffer.set 1 RFC_1928_REPLIES.SUCCEEDED)] ∧
    (∀ p a, SockEvent.callFilter p a ∉ connectRequest fo co buffer) ∧
    (∀ p a, SockEvent.callConnect p a ∉ connectRequest fo co buffer) ∧
    SockEvent.pipe ∉ connectRequest fo co buffer := by
  have htr : connectRequest fo co buffer =
      [.endData (buffer.set 1 RFC_1928_REPLIES.SUCCEEDED)] := by
    simp [connectRequest, hv, hd, requestFinalTap, hcmd, endConnect]
  refine ⟨htr, ?_, ?_, ?_⟩ <;> simp [htr]

/-- Witness for C8 on a concrete BIND request. -/
theorem non_connect_command_acknowledged_witness :
    connectRequest none ConnectOutcome.ok [5, 2, 0, 1, 127, 0, 0, 1, 0, 80] =
      [.endData (([5, 2, 0, 1, 127, 0, 0, 1, 0, 80] : List Nat).set 1
        RFC_1928_REPLIES.SUCCEEDED)] :=
  (non_connect_command_acknowledged none ConnectOutcome.ok _ "127.0.0.1" 80
    (by decide) (by decide) (by decide)).1

/-- C9: with an authenticate hook configured, every version-0x05 handshake
is answered with (0x05, 0x02), selecting BASIC_AUTHENTICATION regardless of
the offered METHODS, and the auth sub-negotiation handler is armed as the
next data handler. -/
theorem handshake_basic_auth_always_selected (buffer : List Nat)
    (hv : byteAt buffer 0 = RFC_1928_VERSION) :
    handshake true buffer =
      [.write [RFC_1928_VERSION, RFC_1928_METHODS.BASIC_AUTHENTICATION],
       .armNext .authenticateH] := by
  simp [handshake, hv]

/-- Witness for C9: BASIC_AUTHENTICATION is not among the offered methods,
yet it is selected. -/
theorem handshake_basic_auth_always_selected_witness :
    (readBytes [5, 1, 0] 2 1).contains
        RFC_1928_METHODS.BASIC_AUTHENTICATION = false ∧
    handshake true [5, 1, 0] =
      [.write [RFC_1928_VERSION, RFC_1928_METHODS.BASIC_AUTHENTICATION],
       .armNext .authenticateH] :=
  ⟨by decide, handshake_basic_auth_always_selected [5, 1, 0] (by decide)⟩

/-- C10: when the server is configured without an authenticate hook, no
reachable session phase has the auth sub-negotiation handler armed, so the
unchecked dereference of the absent hook inside that handler can never be
evaluated. -/
theorem auth_handler_unreachable_without_hook (hasFilter : Bool) (ph : Phase)
    (h : ReachablePhase false hasFilter ph) :
    ph ≠ Phase.nextP NextHandler.authenticateH := by
  have key : ∀ q : Phase, ReachablePhase false hasFilter q →
      q = Phase.handshakeP ∨ q = Phase.nextP NextHandler.connectH ∨
        q = Phase.done := by
    intro q hq
    induction hq with
    | init => exact Or.inl rfl
    | step inp hr ih =>
      rcases ih with rfl | rfl | rfl
      · rcases armedNext_handshake_false inp.buffer with hn | hn <;>
          simp [stepSession, phaseOf, hn]
      · simp [stepSession, phaseOf, armedNext_connectRequest]
      · simp [stepSession]
  rcases key ph h with rfl | rfl | rfl <;> simp

/-- Witness for C10 at a concrete reachable phase: stepping the initial
phase on a no-auth handshake buffer arms the request handler, which is not
the auth sub-negotiation handler. -/
theorem auth_handler_unreachable_without_hook_witness :
    stepSession false false Phase.handshakeP
        ⟨[5, 1, 0], HookOutcome.ret true, HookOutcome.ret true,
          ConnectOutcome.ok⟩ ≠
      Phase.nextP NextHandler.authenticateH :=
  auth_handler_unreachable_without_hook false _
    (ReachablePhase.step _ ReachablePhase.init)

end SimpleSocks
